import Mathlib

/-
  Shallow embedding of the metronome / transport synchronization logic of
  src/main.py (class AudioToolApp).  Python floats are modelled as rationals;
  VLC millisecond times (player.get_time / get_length, integers) as Int.
-/

namespace Yat

/-- Python int() applied to a float: truncation toward zero. -/
def pyint (q : ℚ) : ℤ := if q < 0 then ⌈q⌉ else ⌊q⌋

/-- Embedding of reset_metronome_timer (src/main.py lines 524-538), the
routine the spec calls nextClickAfter: given click_interval_ms,
beat_offset_ms and a current transport time (ms), compute the next click
time.  Returns 0 when the interval is not positive (metronome disabled). -/
def resetNext (interval offset current : ℚ) : ℚ :=
  if 0 < interval then
    if current - offset < 0 then offset
    else
      offset + ((pyint ((current - offset) / interval) + 1 : ℤ) : ℚ) * interval
  else 0

lemma pyint_eq_floor_of_nonneg {q : ℚ} (h : 0 ≤ q) : pyint q = ⌊q⌋ := by
  unfold pyint
  rw [if_neg (not_lt.mpr h)]

lemma resetNext_gt {i : ℚ} (o c : ℚ) (hi : 0 < i) : c < resetNext i o c := by
  unfold resetNext
  rw [if_pos hi]
  split_ifs with h
  · linarith
  · push_neg at h
    have hq : 0 ≤ (c - o) / i := div_nonneg h hi.le
    rw [pyint_eq_floor_of_nonneg hq]
    have h1 : (c - o) / i < (⌊(c - o) / i⌋ : ℚ) + 1 := Int.lt_floor_add_one _
    have h2 : c - o < ((⌊(c - o) / i⌋ : ℚ) + 1) * i := by
      have := (div_lt_iff₀ hi).mp h1
      linarith
    push_cast
    linarith

/-- Claim C2: for every bpm > 0 (interval = 60000/bpm), beatOffsetMs and
currentMs, resetNext (the nextClickAfter of the spec) returns beatOffsetMs when
currentMs < beatOffsetMs, otherwise
beatOffsetMs + (floor((currentMs - beatOffsetMs)/interval) + 1) * interval,
and in every case the returned value is >= currentMs. -/
theorem claim_C2 (bpm offset current : ℚ) (hb : 0 < bpm) :
    (current < offset → resetNext (60000 / bpm) offset current = offset) ∧
    (offset ≤ current →
      resetNext (60000 / bpm) offset current =
        offset + ((⌊(current - offset) / (60000 / bpm)⌋ : ℚ) + 1) * (60000 / bpm)) ∧
    current ≤ resetNext (60000 / bpm) offset current := by
  have hi : 0 < 60000 / bpm := by positivity
  refine ⟨?_, ?_, (resetNext_gt offset current hi).le⟩
  · intro h
    unfold resetNext
    rw [if_pos hi, if_pos (by linarith)]
  · intro h
    have hq : 0 ≤ (current - offset) / (60000 / bpm) :=
      div_nonneg (by linarith) hi.le
    unfold resetNext
    rw [if_pos hi, if_neg (not_lt.mpr (by linarith : (0:ℚ) ≤ current - offset))]
    rw [pyint_eq_floor_of_nonneg hq]
    push_cast
    ring

/-- Witness for claim C2 at bpm = 120 (interval 500), offset 0, current 777. -/
theorem claim_C2_witness :
    (777 : ℚ) ≤ resetNext (60000 / 120) 0 777 ∧
      resetNext (60000 / 120) 0 777 = 1000 :=
  ⟨(claim_C2 120 0 777 (by norm_num)).2.2, by norm_num [resetNext, pyint]⟩

/-- Embedding of the finalization part of on_waveform_release
(src/main.py lines 698-716): the release position is clamped to >= 0,
start/end are swapped if inverted, and loop_active is set to true.
Returns (loop_start_sec, loop_end_sec, loop_active). -/
def on_waveform_release (loop_start_sec xdata : ℚ) : ℚ × ℚ × Bool :=
  if max 0 xdata < loop_start_sec then (max 0 xdata, loop_start_sec, true)
  else (loop_start_sec, max 0 xdata, true)

/-- Claim C7: for every pair of selection endpoints, after loop
finalization the stored region satisfies start <= end (the endpoints are
swapped when given inverted) and the loop is marked active. -/
theorem claim_C7 (s x : ℚ) :
    (on_waveform_release s x).1 ≤ (on_waveform_release s x).2.1 ∧
    (on_waveform_release s x).2.2 = true ∧
    (max 0 x < s →
      (on_waveform_release s x).1 = max 0 x ∧
        (on_waveform_release s x).2.1 = s) := by
  unfold on_waveform_release
  split_ifs with h
  · exact ⟨h.le, rfl, fun _ => ⟨rfl, rfl⟩⟩
  · exact ⟨not_lt.mp h, rfl, fun h2 => absurd h2 h⟩

/-- Witness for claim C7 at an inverted selection (start 5, release at 2). -/
theorem claim_C7_witness :
    (on_waveform_release 5 2).1 ≤ (on_waveform_release 5 2).2.1 ∧
      (on_waveform_release 5 2).1 = 2 ∧ (on_waveform_release 5 2).2.1 = 5 := by
  have h := claim_C7 5 2
  have h2 := h.2.2 (by norm_num)
  exact ⟨h.1, h2.1, h2.2⟩

/-- State of the tap-tempo feature: the tap timestamp buffer (seconds) and
the time of the previous tap, as in AudioToolApp.tap_times /
AudioToolApp.last_tap_time (initialised to [] and 0). -/
structure TapState where
  tap_times : List ℚ
  last_tap_time : ℚ
deriving DecidableEq, Repr

/-- Buffer-management part of tap_tempo (src/main.py lines 735-742): clear
the buffer when the gap since the previous tap exceeds 2.0 s, append the
new timestamp, and pop the oldest entry when the length exceeds 4. -/
def tap_update_buffer (s : TapState) (now : ℚ) : TapState :=
  let ts0 := if 2 < now - s.last_tap_time then ([] : List ℚ) else s.tap_times
  let ts1 := ts0 ++ [now]
  ⟨if 4 < ts1.length then ts1.tail else ts1, now⟩

/-- Average inter-tap interval of a buffer, as computed at src/main.py lines
746-748: (last - first) / (count - 1). -/
def avgInterval (ts : List ℚ) : ℚ :=
  (ts.getLastD 0 - ts.headD 0) / ((ts.length : ℚ) - 1)

/-- Estimation part of tap_tempo (src/main.py lines 743-752): no estimate
below 2 taps or when the average interval is 0, otherwise 60 / average. -/
def tap_estimate (ts : List ℚ) : Option ℚ :=
  if ts.length < 2 then none
  else if avgInterval ts = 0 then none
  else some (60 / avgInterval ts)

/-- One tap_tempo invocation: update the buffer, then estimate. -/
def tap_tempo (s : TapState) (now : ℚ) : TapState × Option ℚ :=
  let s2 := tap_update_buffer s now
  (s2, tap_estimate s2.tap_times)

/-- Run tap_tempo over a sequence of tap times from the initial state,
keeping the final state and the estimate of the last tap. -/
def tap_run (times : List ℚ) : TapState × Option ℚ :=
  times.foldl (fun p t => tap_tempo p.1 t) (⟨[], 0⟩, none)

/-- Counterexample to claim C5: five taps in quick succession (gaps of
0.5 s, never above the 2.0 s reset threshold) leave only 4 timestamps in
the buffer and the first tap is already evicted, although a cap of 5 was
not exceeded; the code caps the buffer at 4 entries, not 5. -/
theorem claim_C5_cex :
    (tap_run [10, 21/2, 11, 23/2, 12]).1.tap_times = [21/2, 11, 23/2, 12] ∧
    (tap_run [10, 21/2, 11, 23/2, 12]).1.tap_times.length = 4 ∧
    (10 : ℚ) ∉ (tap_run [10, 21/2, 11, 23/2, 12]).1.tap_times := by
  norm_num [tap_run, tap_tempo, tap_update_buffer, tap_estimate, avgInterval]

/-- Claim C5 (amended: the cap is 4, not 5): the tap buffer holds at most 4
timestamps — each tap appends the new timestamp, evicting the oldest when
the length exceeds 4 — and the buffer is emptied first (leaving only the
new tap) whenever the gap since the previous tap exceeds 2.0 seconds. -/
theorem claim_C5 (s : TapState) (now : ℚ) (h : s.tap_times.length ≤ 4) :
    (tap_tempo s now).1.tap_times.length ≤ 4 ∧
    (2 < now - s.last_tap_time → (tap_tempo s now).1.tap_times = [now]) := by
  by_cases hg : 2 < now - s.last_tap_time
  · simp [tap_tempo, tap_update_buffer, hg]
  · simp only [tap_tempo, tap_update_buffer, if_neg hg]
    refine ⟨?_, fun h2 => absurd h2 hg⟩
    split_ifs with hl
    · simp only [List.length_tail, List.length_append, List.length_singleton]
      omega
    · simp only [List.length_append, List.length_singleton] at hl ⊢
      omega

/-- Witness for claim C5: a full buffer of 4 stays at 4 entries after a
quick 5th tap, and a tap after a gap of 96 s resets the buffer. -/
theorem claim_C5_witness :
    (tap_tempo ⟨[1, 2, 3, 4], 4⟩ 5).1.tap_times.length ≤ 4 ∧
    (tap_tempo ⟨[1, 2, 3, 4], 4⟩ 100).1.tap_times = [100] :=
  ⟨(claim_C5 ⟨[1, 2, 3, 4], 4⟩ 5 (by norm_num)).1,
   (claim_C5 ⟨[1, 2, 3, 4], 4⟩ 100 (by norm_num)).2 (by norm_num)⟩

/-- Claim C6: the tap-tempo estimator returns no estimate while the buffer
has fewer than 2 taps or when the average interval (last - first) /
(count - 1) is exactly 0; otherwise it returns bpm = 60 / averageInterval;
in particular 4 taps at exactly 0.5-second spacing yield a bpm of exactly
120.0 (hence within 0.5 of 120.0). -/
theorem claim_C6 (s : TapState) (now : ℚ) :
    ((tap_tempo s now).1.tap_times.length < 2 → (tap_tempo s now).2 = none) ∧
    (avgInterval (tap_tempo s now).1.tap_times = 0 → (tap_tempo s now).2 = none) ∧
    (2 ≤ (tap_tempo s now).1.tap_times.length →
      avgInterval (tap_tempo s now).1.tap_times ≠ 0 →
      (tap_tempo s now).2 =
        some (60 / avgInterval (tap_tempo s now).1.tap_times)) ∧
    (tap_run [10, 21/2, 11, 23/2]).2 = some 120 := by
  refine ⟨?_, ?_, ?_, ?_⟩
  · intro h
    simp only [tap_tempo] at h ⊢
    rw [tap_estimate, if_pos h]
  · intro h
    simp only [tap_tempo] at h ⊢
    rw [tap_estimate]
    split_ifs <;> simp_all
  · intro h1 h2
    simp only [tap_tempo] at h1 h2 ⊢
    rw [tap_estimate, if_neg (not_lt.mpr h1), if_neg h2]
  · norm_num [tap_run, tap_tempo, tap_update_buffer, tap_estimate, avgInterval]

/-- Witness for claim C6: a first tap yields no estimate; a second tap half
a second later yields 120 bpm. -/
theorem claim_C6_witness :
    (tap_tempo ⟨[], 0⟩ 5).2 = none ∧
    (tap_tempo ⟨[10], 10⟩ (21/2)).2 = some 120 := by
  constructor
  · exact (claim_C6 ⟨[], 0⟩ 5).1 (by norm_num [tap_tempo, tap_update_buffer])
  · have h := (claim_C6 ⟨[10], 10⟩ (21/2)).2.2.1
      (by norm_num [tap_tempo, tap_update_buffer])
      (by norm_num [tap_tempo, tap_update_buffer, avgInterval])
    rw [h]
    norm_num [tap_tempo, tap_update_buffer, avgInterval]

/-- Embedding of the click-interval update at the top of play_audio
(src/main.py lines 541-550).  The previous interval is always overwritten:
a bpm entry that fails to parse (modelled as none) and any bpm <= 0 both
set the interval to 0; bpm > 0 sets it to 60000/bpm.  No error of any kind
is raised. -/
def play_audio_update (prev_interval : ℚ) (bpm : Option ℚ) : ℚ :=
  match bpm with
  | some b => if 0 < b then 60000 / b else 0
  | none => 0

/-- Counterexample to claim C4: supplying bpm = -10 while the previous
click interval is 500 is not rejected — play_audio replaces the grid,
setting the interval to 0 exactly as bpm = 0 would; no InvalidBpm error
exists in the code. -/
theorem claim_C4_cex :
    play_audio_update 500 (some (-10)) = 0 ∧
    play_audio_update 500 (some (-10)) = play_audio_update 500 (some 0) ∧
    play_audio_update 500 (some (-10)) ≠ 500 := by
  norm_num [play_audio_update]

/-- Claim C4 (amended: negative bpm is not rejected): any bpm <= 0 —
negative values included — and any unparseable bpm entry are accepted and
disable clicking by setting the click interval to 0, replacing the
previous grid value; bpm > 0 sets the interval to 60000/bpm. -/
theorem claim_C4 (prev : ℚ) (bpm : ℚ) :
    (bpm ≤ 0 → play_audio_update prev (some bpm) = 0) ∧
    play_audio_update prev none = 0 ∧
    (0 < bpm → play_audio_update prev (some bpm) = 60000 / bpm) := by
  refine ⟨fun h => ?_, rfl, fun h => ?_⟩
  · rw [play_audio_update, if_neg (not_lt.mpr h)]
  · rw [play_audio_update, if_pos h]

/-- Witness for claim C4 at bpm = -10 and bpm = 120. -/
theorem claim_C4_witness :
    play_audio_update 500 (some (-10)) = 0 ∧
    play_audio_update 500 (some 120) = 500 := by
  constructor
  · exact (claim_C4 500 (-10)).1 (by norm_num)
  · rw [(claim_C4 500 120).2.2 (by norm_num)]
    norm_num

/-- The metronome-grid fields of AudioToolApp that the auto-sync path
touches: the bpm entry text (as a number), click_interval_ms,
beat_offset_ms, the metronome-active flag and next_click_time_ms. -/
structure SyncGrid where
  bpm_shown : ℚ
  click_interval_ms : ℚ
  beat_offset_ms : ℚ
  metronome_active : Bool
  next_click_time_ms : ℚ
deriving DecidableEq, Repr

/-- The two auto-sync failure modes named by the spec: an empty detected
beat sequence, and a detected tempo <= 0. -/
inductive SyncError where
  | NoBeatsDetected
  | InvalidTempo
deriving DecidableEq, Repr

/-- Embedding of apply_sync_results (src/main.py lines 815-831): a tempo
<= 0 is rejected before anything is modified; on success the bpm entry,
click interval and beat offset are replaced, the metronome is activated and
the schedule is recomputed via reset_metronome_timer at the current
transport time (clamped to 0 when VLC reports a negative time). -/
def apply_sync_results (g : SyncGrid) (tempo first_beat_sec : ℚ)
    (current_ms : ℤ) : SyncGrid × Option SyncError :=
  if tempo ≤ 0 then (g, some SyncError.InvalidTempo)
  else
    ({ bpm_shown := tempo
       click_interval_ms := 60000 / tempo
       beat_offset_ms := first_beat_sec * 1000
       metronome_active := true
       next_click_time_ms :=
         resetNext (60000 / tempo) (first_beat_sec * 1000)
           (if current_ms < 0 then 0 else (current_ms : ℚ)) },
     none)

/-- Embedding of run_beat_analysis (src/main.py lines 783-796): an empty
detected beat sequence aborts before apply_sync_results is reached;
otherwise the first beat time is handed to apply_sync_results. -/
def run_beat_analysis (g : SyncGrid) (tempo : ℚ) (beat_times : List ℚ)
    (current_ms : ℤ) : SyncGrid × Option SyncError :=
  if beat_times.length = 0 then (g, some SyncError.NoBeatsDetected)
  else apply_sync_results g tempo (beat_times.headD 0) current_ms

/-- Claim C9: auto-sync failure paths leave the existing beat grid
unchanged — an empty beat sequence fails with NoBeatsDetected without
modifying the grid, and a detected tempo <= 0 fails with InvalidTempo
without modifying the grid. -/
theorem claim_C9 (g : SyncGrid) (tempo : ℚ) (beat_times : List ℚ)
    (current_ms : ℤ) :
    (beat_times = [] →
      run_beat_analysis g tempo beat_times current_ms =
        (g, some SyncError.NoBeatsDetected)) ∧
    (beat_times ≠ [] → tempo ≤ 0 →
      run_beat_analysis g tempo beat_times current_ms =
        (g, some SyncError.InvalidTempo)) := by
  constructor
  · intro h
    rw [run_beat_analysis, if_pos (by simp [h])]
  · intro h1 h2
    rw [run_beat_analysis, if_neg (by simp [h1]), apply_sync_results,
      if_pos h2]

/-- Witness for claim C9: both failure paths at a concrete grid. -/
theorem claim_C9_witness :
    run_beat_analysis ⟨120, 500, 0, true, 1000⟩ 97 [] 0 =
      (⟨120, 500, 0, true, 1000⟩, some SyncError.NoBeatsDetected) ∧
    run_beat_analysis ⟨120, 500, 0, true, 1000⟩ (-3) [1/2, 1] 0 =
      (⟨120, 500, 0, true, 1000⟩, some SyncError.InvalidTempo) :=
  ⟨(claim_C9 ⟨120, 500, 0, true, 1000⟩ 97 [] 0).1 rfl,
   (claim_C9 ⟨120, 500, 0, true, 1000⟩ (-3) [1/2, 1] 0).2 (by simp)
     (by norm_num)⟩

/-- Result of a skip request: either playback is stopped (end of audio
reached) or the transport is sought to a target (ms) with the click
schedule recomputed to a new next-click time. -/
inductive SkipResult where
  | stopped
  | sought (target_ms : ℤ) (next_click_ms : ℚ)
deriving DecidableEq, Repr

/-- Embedding of skip (src/main.py lines 619-654): the target position is
the current position plus the signed skip amount; when the reported track
length is positive and the target reaches it, playback is stopped;
otherwise a negative target is clamped to 0, the transport is sought to
int(target * 1000) and the metronome schedule is recomputed at
target * 1000 via reset_metronome_timer. -/
def skip (current_ms total_ms : ℤ) (interval offset seconds_to_skip : ℚ) :
    SkipResult :=
  let new_sec : ℚ := (current_ms : ℚ) / 1000 + seconds_to_skip
  if 0 < total_ms ∧ (total_ms : ℚ) / 1000 ≤ new_sec then SkipResult.stopped
  else
    let clamped := if new_sec < 0 then 0 else new_sec
    SkipResult.sought (pyint (clamped * 1000))
      (resetNext interval offset (clamped * 1000))

/-- Claim C10: for every skip request with a loaded file, writing target =
current position + signed skip amount: if the track duration is known
(positive) and target >= duration, playback is stopped instead of seeking;
if target < 0, the transport is sought to exactly 0 (and the schedule is
recomputed there); otherwise the transport is sought to the target and the
click schedule is recomputed at that new position. -/
theorem claim_C10 (current_ms total_ms : ℤ) (interval offset s : ℚ) :
    (0 < total_ms → (total_ms : ℚ) / 1000 ≤ (current_ms : ℚ) / 1000 + s →
      skip current_ms total_ms interval offset s = SkipResult.stopped) ∧
    ((current_ms : ℚ) / 1000 + s < 0 →
      skip current_ms total_ms interval offset s =
        SkipResult.sought 0 (resetNext interval offset 0)) ∧
    (0 ≤ (current_ms : ℚ) / 1000 + s →
      (0 < total_ms → (current_ms : ℚ) / 1000 + s < (total_ms : ℚ) / 1000) →
      skip current_ms total_ms interval offset s =
        SkipResult.sought (pyint (((current_ms : ℚ) / 1000 + s) * 1000))
          (resetNext interval offset (((current_ms : ℚ) / 1000 + s) * 1000))) := by
  refine ⟨fun h1 h2 => ?_, fun h => ?_, fun h1 h2 => ?_⟩
  · rw [skip]
    simp only [if_pos (And.intro h1 h2)]
  · rw [skip]
    have hs : ¬(0 < total_ms ∧ (total_ms : ℚ) / 1000 ≤ (current_ms : ℚ) / 1000 + s) := by
      rintro ⟨h1, h2⟩
      have : (0 : ℚ) < (total_ms : ℚ) / 1000 := by positivity
      linarith
    simp only [if_neg hs, if_pos h]
    norm_num [pyint]
  · rw [skip]
    have hs : ¬(0 < total_ms ∧ (total_ms : ℚ) / 1000 ≤ (current_ms : ℚ) / 1000 + s) := by
      rintro ⟨ha, hb⟩
      exact absurd (h2 ha) (not_lt.mpr hb)
    simp only [if_neg hs, if_neg (not_lt.mpr h1)]

/-- Witness for claim C10: all three branches at concrete inputs — a +10 s
skip at 95 s of a 100 s track stops; a -10 s skip at 5 s seeks to 0; a
+10 s skip at 5 s of a 100 s track seeks to 15000 ms. -/
theorem claim_C10_witness :
    skip 95000 100000 500 0 10 = SkipResult.stopped ∧
    skip 5000 100000 500 0 (-10) = SkipResult.sought 0 (resetNext 500 0 0) ∧
    skip 5000 100000 500 0 10 =
      SkipResult.sought 15000 (resetNext 500 0 15000) := by
  refine ⟨(claim_C10 95000 100000 500 0 10).1 (by norm_num) (by norm_num),
    (claim_C10 5000 100000 500 0 (-10)).2.1 (by norm_num), ?_⟩
  rw [(claim_C10 5000 100000 500 0 10).2.2 (by norm_num) (fun _ => by norm_num)]
  norm_num [pyint]

/-- The VLC transport as seen by the tick: reported time (ms, may be
negative), reported media length (ms) and whether the player state is
Ended. -/
structure Transport where
  timeMs : ℤ
  lengthMs : ℤ
  ended : Bool
deriving DecidableEq, Repr

/-- The AudioToolApp fields read or written by update_playback_head. -/
structure AppState where
  is_playing : Bool
  is_paused : Bool
  transport : Transport
  loop_active : Bool
  loop_start_sec : Option ℚ
  loop_end_sec : Option ℚ
  metronome_active : Bool
  click_interval_ms : ℚ
  beat_offset_ms : ℚ
  next_click_time_ms : ℚ
  has_click_sound : Bool
deriving DecidableEq, Repr

/-- Observable effects of one tick: how many clicks were played, the loop
seek target if one was issued (ms), whether the next tick was scheduled
(root.after(50, ...) was reached) and whether stop_audio was invoked. -/
structure TickInfo where
  clicks : ℕ
  sought : Option ℤ
  rescheduled : Bool
  stopped : Bool
deriving DecidableEq, Repr

/-- Environment of one tick: either every transport access succeeds, or a
transient exception is raised by the transport read at the top of the try
block (caught by the generic except handler at src/main.py lines 520-522). -/
inductive TickEnv where
  | ok
  | raiseExc
deriving DecidableEq, Repr

/-- The metronome block of update_playback_head (src/main.py lines
509-514), given that the metronome guard held: if currentMs has reached
the scheduled next click, play one click and advance the schedule by one
interval, falling back to reset_metronome_timer(currentMs) when the
advanced value is still behind currentMs.  Returns the number of clicks
played and the new next_click_time_ms. -/
def dueClick (interval offset next current : ℚ) : ℕ × ℚ :=
  if next ≤ current then
    if next + interval < current then (1, resetNext interval offset current)
    else (1, next + interval)
  else (0, next)

/-- Embedding of stop_audio (src/main.py lines 586-601): stop flags, reset
the schedule at time 0 and clear the loop selection. -/
def stop_audio (st : AppState) : AppState :=
  { st with
    is_playing := false
    is_paused := false
    next_click_time_ms :=
      resetNext st.click_interval_ms st.beat_offset_ms 0
    loop_active := false
    loop_start_sec := none
    loop_end_sec := none }

/-- The loop block of update_playback_head (src/main.py lines 491-497):
when the loop is active with both endpoints set and the current position
has reached the end, seek to int(loop_start * 1000), re-read the (post-
seek) time and recompute the schedule there.  Returns the updated state,
the current time of the tick after the block, and the seek target if any. -/
def loopStep (st : AppState) : AppState × ℤ × Option ℤ :=
  match st.loop_start_sec, st.loop_end_sec with
  | some a, some b =>
    if st.loop_active = true ∧ b ≤ (st.transport.timeMs : ℚ) / 1000 then
      let t := pyint (a * 1000)
      ({ st with
         transport := { st.transport with timeMs := t }
         next_click_time_ms :=
           resetNext st.click_interval_ms st.beat_offset_ms (t : ℚ) },
       t, some t)
    else (st, st.transport.timeMs, none)
  | _, _ => (st, st.transport.timeMs, none)

/-- The metronome block of one tick (src/main.py line 509 guard plus the
dueClick body), acting on the post-loop state st1 and the current tick
time cm (ms): the guard requires the metronome active, not paused, a
positive click interval and a generated click sound. -/
def metroStep (st1 : AppState) (cm : ℤ) : ℕ × ℚ :=
  if st1.metronome_active = true ∧ st1.is_paused = false ∧
      0 < st1.click_interval_ms ∧ st1.has_click_sound = true then
    dueClick st1.click_interval_ms st1.beat_offset_ms
      st1.next_click_time_ms (cm : ℚ)
  else (0, st1.next_click_time_ms)

/-- The body of the try block of update_playback_head after the negative-
time check (src/main.py lines 490-517): loop block, Ended check (terminal,
via stop_audio), metronome block, then the next tick is scheduled. -/
def tickCore (st : AppState) : AppState × TickInfo :=
  if (loopStep st).1.transport.ended = true then
    (stop_audio (loopStep st).1, ⟨0, (loopStep st).2.2, false, true⟩)
  else
    ({ (loopStep st).1 with
       next_click_time_ms := (metroStep (loopStep st).1 (loopStep st).2.1).2 },
     ⟨(metroStep (loopStep st).1 (loopStep st).2.1).1,
      (loopStep st).2.2, true, false⟩)

/-- Embedding of update_playback_head (src/main.py lines 478-522), one
scheduler tick: bail out when not playing; a transient exception is caught
by the generic handler, which sets is_playing to False and schedules
nothing; a negative position returns without rescheduling; otherwise
tickCore runs the loop block, the Ended check and the metronome block. -/
def update_playback_head (st : AppState) (env : TickEnv) :
    AppState × TickInfo :=
  if st.is_playing = false then (st, ⟨0, none, false, false⟩)
  else
    match env with
    | TickEnv.raiseExc =>
      ({ st with is_playing := false }, ⟨0, none, false, false⟩)
    | TickEnv.ok =>
      if (st.transport.timeMs : ℚ) / 1000 < 0 then (st, ⟨0, none, false, false⟩)
      else tickCore st

lemma tick_ok (st : AppState) (hplay : st.is_playing = true)
    (hpos2 : ¬((st.transport.timeMs : ℚ) / 1000 < 0)) :
    update_playback_head st TickEnv.ok = tickCore st := by
  unfold update_playback_head
  rw [hplay]
  show (if (st.transport.timeMs : ℚ) / 1000 < 0 then (st, ⟨0, none, false, false⟩)
    else tickCore st) = tickCore st
  rw [if_neg hpos2]

lemma dueClick_clicks_le_one (i o n c : ℚ) : (dueClick i o n c).1 ≤ 1 := by
  unfold dueClick
  split_ifs <;> norm_num

lemma dueClick_not_due {i o n c : ℚ} (h : ¬n ≤ c) : dueClick i o n c = (0, n) := by
  unfold dueClick
  rw [if_neg h]

lemma metroStep_clicks_le_one (st1 : AppState) (cm : ℤ) :
    (metroStep st1 cm).1 ≤ 1 := by
  unfold metroStep
  split_ifs
  · exact dueClick_clicks_le_one _ _ _ _
  · norm_num

lemma tickCore_clicks_le_one (st : AppState) : (tickCore st).2.clicks ≤ 1 := by
  unfold tickCore
  split_ifs
  · norm_num
  · exact metroStep_clicks_le_one _ _

lemma tick_clicks_le_one (st : AppState) (env : TickEnv) :
    (update_playback_head st env).2.clicks ≤ 1 := by
  unfold update_playback_head
  by_cases hp : st.is_playing = false
  · simp [hp]
  · rw [if_neg hp]
    cases env with
    | raiseExc => norm_num
    | ok =>
      dsimp only
      split_ifs
      · norm_num
      · exact tickCore_clicks_le_one st

/-- Claim C1: for every positive click interval, whenever the metronome
block observes currentMs >= scheduledNextMs it plays exactly one click and
advances the schedule by one interval, falling back to
reset_metronome_timer(currentMs) (the nextClickAfter of the spec) only when the
advanced value is still strictly behind currentMs; and a single scheduler
tick never plays more than one click. -/
theorem claim_C1 :
    (∀ i o next current : ℚ, 0 < i → next ≤ current →
      (dueClick i o next current).1 = 1 ∧
      (current ≤ next + i → (dueClick i o next current).2 = next + i) ∧
      (next + i < current →
        (dueClick i o next current).2 = resetNext i o current)) ∧
    ∀ (st : AppState) (env : TickEnv),
      (update_playback_head st env).2.clicks ≤ 1 := by
  refine ⟨fun i o next current hi hdue => ?_, tick_clicks_le_one⟩
  unfold dueClick
  rw [if_pos hdue]
  refine ⟨?_, fun h => ?_, fun h => ?_⟩
  · split_ifs <;> rfl
  · rw [if_neg (not_lt.mpr h)]
  · rw [if_pos h]

/-- Witness for claim C1: interval 500, schedule at 1000.  Observed at
1300 the tick fires once and advances to 1500; observed at 6000 (a stall
of many intervals) it fires once and realigns to 6500 instead of bursting. -/
theorem claim_C1_witness :
    (dueClick 500 0 1000 1300).1 = 1 ∧
    (dueClick 500 0 1000 1300).2 = 1500 ∧
    (dueClick 500 0 1000 6000).1 = 1 ∧
    (dueClick 500 0 1000 6000).2 = resetNext 500 0 6000 ∧
    resetNext 500 0 6000 = 6500 := by
  have h1 := claim_C1.1 500 0 1000 1300 (by norm_num) (by norm_num)
  have h2 := claim_C1.1 500 0 1000 6000 (by norm_num) (by norm_num)
  refine ⟨h1.1, ?_, h2.1, h2.2.2 (by norm_num), by norm_num [resetNext, pyint]⟩
  rw [h1.2.1 (by norm_num)]
  norm_num

/-- Counterexample to claim C3: a transient transport failure during a
tick of a playing state is caught, but the loop does not continue — no
next tick is scheduled and is_playing is forced to False, so scheduling
terminates even though the failure was not the Ended signal. -/
theorem claim_C3_cex :
    (update_playback_head
        ⟨true, false, ⟨5000, 100000, false⟩, false, none, none,
          true, 500, 0, 1000, true⟩ TickEnv.raiseExc).2.rescheduled = false ∧
    (update_playback_head
        ⟨true, false, ⟨5000, 100000, false⟩, false, none, none,
          true, 500, 0, 1000, true⟩ TickEnv.raiseExc).1.is_playing = false := by
  constructor <;> rfl

lemma loopStep_transport_ended (st : AppState) :
    (loopStep st).1.transport.ended = st.transport.ended := by
  unfold loopStep
  rcases st.loop_start_sec with _ | a <;> rcases st.loop_end_sec with _ | b <;>
    try rfl
  dsimp only
  split_ifs <;> rfl

/-- Claim C3 (amended: the loop stops on any failure, not only on Ended):
a transient transport failure in a tick of a playing state is caught
rather than propagating, and the remaining work of the tick is skipped (no
click, no seek), but the scheduling loop does not continue — is_playing is
set to False and no next tick is scheduled; the explicit Ended signal
also terminates the loop, through stop_audio. -/
theorem claim_C3 (st : AppState) (hplay : st.is_playing = true) :
    update_playback_head st TickEnv.raiseExc =
      ({ st with is_playing := false }, ⟨0, none, false, false⟩) ∧
    (st.transport.ended = true → 0 ≤ st.transport.timeMs →
      (update_playback_head st TickEnv.ok).2.stopped = true ∧
      (update_playback_head st TickEnv.ok).2.rescheduled = false ∧
      (update_playback_head st TickEnv.ok).1.is_playing = false) := by
  constructor
  · unfold update_playback_head
    rw [hplay]
    norm_num
  · intro hend hpos
    have hpos2 : ¬((st.transport.timeMs : ℚ) / 1000 < 0) := by
      push_neg
      positivity
    rw [tick_ok st hplay hpos2]
    unfold tickCore
    rw [loopStep_transport_ended, hend, if_pos rfl]
    exact ⟨rfl, rfl, rfl⟩

/-- Witness for claim C3: the caught-failure branch on a playing state and
the terminal Ended branch on an ended transport. -/
theorem claim_C3_witness :
    (update_playback_head
        ⟨true, false, ⟨7000, 100000, false⟩, false, none, none,
          false, 500, 0, 1000, true⟩ TickEnv.raiseExc).2.rescheduled = false ∧
    (update_playback_head
        ⟨true, false, ⟨99000, 100000, true⟩, false, none, none,
          false, 500, 0, 1000, true⟩ TickEnv.ok).2.stopped = true := by
  constructor
  · rw [(claim_C3
      ⟨true, false, ⟨7000, 100000, false⟩, false, none, none,
        false, 500, 0, 1000, true⟩ rfl).1]
  · exact ((claim_C3
      ⟨true, false, ⟨99000, 100000, true⟩, false, none, none,
        false, 500, 0, 1000, true⟩ rfl).2 rfl (by norm_num)).1

lemma tick_loop_seek (st : AppState) (a b : ℚ)
    (hplay : st.is_playing = true) (hend : st.transport.ended = false)
    (hpos : 0 ≤ st.transport.timeMs) (hact : st.loop_active = true)
    (hsa : st.loop_start_sec = some a) (hsb : st.loop_end_sec = some b)
    (hcross : b ≤ (st.transport.timeMs : ℚ) / 1000) :
    update_playback_head st TickEnv.ok =
      ({ st with
         transport := { st.transport with timeMs := pyint (a * 1000) }
         next_click_time_ms :=
           resetNext st.click_interval_ms st.beat_offset_ms
             ((pyint (a * 1000) : ℤ) : ℚ) },
       ⟨0, some (pyint (a * 1000)), true, false⟩) := by
  have hloop : loopStep st =
      ({ st with
         transport := { st.transport with timeMs := pyint (a * 1000) }
         next_click_time_ms :=
           resetNext st.click_interval_ms st.beat_offset_ms
             ((pyint (a * 1000) : ℤ) : ℚ) },
       pyint (a * 1000), some (pyint (a * 1000))) := by
    unfold loopStep
    rw [hsa, hsb]
    dsimp only
    rw [if_pos ⟨hact, hcross⟩]
  have hpos2 : ¬((st.transport.timeMs : ℚ) / 1000 < 0) := by
    push_neg
    positivity
  rw [tick_ok st hplay hpos2]
  unfold tickCore
  rw [hloop]
  dsimp only
  rw [hend, if_neg (by norm_num)]
  unfold metroStep
  dsimp only
  split_ifs with hm
  · have hi : 0 < st.click_interval_ms := hm.2.2.1
    rw [dueClick_not_due (not_le.mpr (resetNext_gt st.beat_offset_ms _ hi))]
  · rfl

lemma loopStep_no_seek (st : AppState)
    (h : st.loop_active = false ∨
      ∀ c, st.loop_end_sec = some c → (st.transport.timeMs : ℚ) / 1000 < c) :
    loopStep st = (st, st.transport.timeMs, none) := by
  unfold loopStep
  rcases hs : st.loop_start_sec with _ | a <;>
    rcases he : st.loop_end_sec with _ | b <;> try rfl
  dsimp only
  have hcond : ¬(st.loop_active = true ∧ b ≤ (st.transport.timeMs : ℚ) / 1000) := by
    rintro ⟨h1, h2⟩
    rcases h with h | h
    · rw [h] at h1
      cases h1
    · exact absurd h2 (not_le.mpr (h b he))
  rw [if_neg hcond]

lemma tickCore_sought (st : AppState) :
    (tickCore st).2.sought = (loopStep st).2.2 := by
  unfold tickCore
  split_ifs <;> rfl

/-- Claim C8: on every scheduler tick where the loop is active (with both
endpoints set) and the current position has reached the loop end, the
transport is sought to the loop start (ms) and the click schedule is
immediately recomputed via reset_metronome_timer at the post-seek
position; when the loop is inactive or the position is before the loop
end, no seek is issued. -/
theorem claim_C8 (st : AppState) (a b : ℚ) :
    (st.is_playing = true → st.transport.ended = false →
     0 ≤ st.transport.timeMs → st.loop_active = true →
     st.loop_start_sec = some a → st.loop_end_sec = some b →
     b ≤ (st.transport.timeMs : ℚ) / 1000 →
      (update_playback_head st TickEnv.ok).2.sought = some (pyint (a * 1000)) ∧
      (update_playback_head st TickEnv.ok).1.transport.timeMs =
        pyint (a * 1000) ∧
      (update_playback_head st TickEnv.ok).1.next_click_time_ms =
        resetNext st.click_interval_ms st.beat_offset_ms
          ((pyint (a * 1000) : ℤ) : ℚ)) ∧
    ((st.loop_active = false ∨
        ∀ c, st.loop_end_sec = some c → (st.transport.timeMs : ℚ) / 1000 < c) →
      ∀ env, (update_playback_head st env).2.sought = none) := by
  constructor
  · intro hplay hend hpos hact hsa hsb hcross
    rw [tick_loop_seek st a b hplay hend hpos hact hsa hsb hcross]
    exact ⟨rfl, rfl, rfl⟩
  · intro h env
    unfold update_playback_head
    by_cases hp : st.is_playing = false
    · rw [if_pos hp]
    · rw [if_neg hp]
      cases env with
      | raiseExc => rfl
      | ok =>
        dsimp only
        split_ifs with h1
        · rfl
        · rw [tickCore_sought, loopStep_no_seek st h]

/-- Witness for claim C8: with the loop set to [10 s, 30 s] and the
position at 60 s the tick seeks to 10000 ms and reschedules the click at
10500 ms; with the loop inactive no seek is issued. -/
theorem claim_C8_witness :
    (update_playback_head
        ⟨true, false, ⟨60000, 100000, false⟩, true, some 10, some 30,
          true, 500, 0, 777, true⟩ TickEnv.ok).2.sought = some 10000 ∧
    (update_playback_head
        ⟨true, false, ⟨60000, 100000, false⟩, true, some 10, some 30,
          true, 500, 0, 777, true⟩ TickEnv.ok).1.next_click_time_ms = 10500 ∧
    (update_playback_head
        ⟨true, false, ⟨60000, 100000, false⟩, false, some 10, some 30,
          true, 500, 0, 777, true⟩ TickEnv.ok).2.sought = none := by
  have h := (claim_C8
    ⟨true, false, ⟨60000, 100000, false⟩, true, some 10, some 30,
      true, 500, 0, 777, true⟩ 10 30).1 rfl rfl (by norm_num) rfl rfl rfl
    (by norm_num)
  have h2 := (claim_C8
    ⟨true, false, ⟨60000, 100000, false⟩, false, some 10, some 30,
      true, 500, 0, 777, true⟩ 10 30).2 (Or.inl rfl) TickEnv.ok
  refine ⟨?_, ?_, h2⟩
  · rw [h.1]
    norm_num [pyint]
  · rw [h.2.2]
    norm_num [resetNext, pyint]

end Yat
